import Mathlib

/-!
Verification of the reservation and booking logic of the akwa_hotels
repository (Django apps `mainapps.accommodation` and `mainapps.food_dining`).

The Python source is shallowly embedded: Django model `save` methods, DRF
serializer `validate`/`create` methods and the ViewSet actions `confirm`,
`cancel` and `update_status` become pure Lean functions over explicit record
states.  Monetary `Decimal` values (two decimal places) are embedded as `Int`
numbers of hundredths, which is exact fixed-point arithmetic.  Calendar dates
are embedded as their proleptic-Gregorian day ordinal (`Int`), so that the
Python expression `(check_out_date - check_in_date).days` is plain integer
subtraction.  Timestamps (`timezone.now()`) are opaque `Nat` instants.

The per-resource availability calendar (`AccommodationAvailability` rows /
`Table` slots) is embedded as a `Ledger` (remaining capacity per day ordinal);
it is threaded through every operation so that theorems can state exactly
which operations read or write it.
-/

namespace AkwaHotels

/-- Day ordinal of the civil date y-m-d (proleptic Gregorian), matching the
day arithmetic of Python `datetime.date` up to a constant offset (the offset
cancels in every date difference the code computes). -/
def daysFromCivil (y m d : Int) : Int :=
  let y := if m ≤ 2 then y - 1 else y
  let era : Int := (if 0 ≤ y then y else y - 399).fdiv 400
  let yoe : Int := y - era * 400
  let doy : Int := ((153 * (m + (if 2 < m then -3 else 9)) + 2).fdiv 5) + d - 1
  let doe : Int := yoe * 365 + yoe.fdiv 4 - yoe.fdiv 100 + doy
  era * 146097 + doe - 719468

/-- Remaining bookable capacity per day ordinal for the resource under
consideration (the `AccommodationAvailability` / table-slot calendar). -/
def Ledger : Type := Int → Nat

/-! ## Accommodation domain (`mainapps/accommodation`) -/

/-- `BookingStatus` choices of `accommodation/models.py`. -/
inductive AccStatus where
  | pending
  | confirmed
  | checked_in
  | checked_out
  | cancelled
  | no_show
deriving DecidableEq, Repr

/-- The database string value of an accommodation booking status. -/
def AccStatus.toStr : AccStatus → String
  | .pending => "pending"
  | .confirmed => "confirmed"
  | .checked_in => "checked_in"
  | .checked_out => "checked_out"
  | .cancelled => "cancelled"
  | .no_show => "no_show"

/-- The persisted state of an `AccommodationBooking` row (fields the booking
logic reads or writes; dates as day ordinals, money as `Int` hundredths). -/
structure AccBooking where
  booking_reference : String
  profile_id : String
  guest_user_id : String
  guest_name : String
  guest_email : String
  guest_phone : String
  check_in_date : Int
  check_out_date : Int
  number_of_guests : Nat
  number_of_rooms : Nat
  room_rate : Int
  total_nights : Int
  subtotal : Int
  taxes : Int
  fees : Int
  total_amount : Int
  status : AccStatus
  confirmation_date : Option Nat
  cancellation_date : Option Nat
deriving DecidableEq, Repr

/-- `AccommodationBooking.generate_booking_reference`: `"ACC"` followed by the
tenant's profile id followed by the random suffix (the 8 random uppercase or
digit characters are passed in as `sfx`). -/
def accGenRef (profileId sfx : String) : String :=
  "ACC" ++ profileId ++ sfx

/-- `AccommodationBooking.save`: generate the reference only when it is
absent, then recompute `total_nights`, `subtotal` and `total_amount` from the
stored fields (this model has no tip or discount field). -/
def accSave (b : AccBooking) (sfx : String) : AccBooking :=
  let ref := if b.booking_reference = "" then accGenRef b.profile_id sfx
             else b.booking_reference
  let nights := b.check_out_date - b.check_in_date
  let sub := b.room_rate * nights * (b.number_of_rooms : Int)
  { b with booking_reference := ref
           total_nights := nights
           subtotal := sub
           total_amount := sub + b.taxes + b.fees }

/-- The writable payload of a booking-creation request, after DRF field
validation: exactly the serializer fields of `AccommodationBookingSerializer`
that are not read-only.  `status` is writable (it is listed in `fields` but
not in `read_only_fields`); when omitted the model default `pending`
applies. -/
structure AccBookingRequest where
  check_in_date : Int
  check_out_date : Int
  number_of_guests : Nat
  number_of_rooms : Nat
  room_rate : Int
  taxes : Int
  fees : Int
  status : Option AccStatus
  guest_name : String
  guest_email : String
  guest_phone : String
deriving DecidableEq, Repr

/-- `AccommodationBookingSerializer.validate`: reject when check-out is not
strictly after check-in, or when check-in is before today.  Returns the
error message raised, or `none` when the data is accepted. -/
def accValidate (today : Int) (r : AccBookingRequest) : Option String :=
  if r.check_out_date ≤ r.check_in_date then
    some "Check-out date must be after check-in date"
  else if r.check_in_date < today then
    some "Check-in date cannot be in the past"
  else none

/-- `AccommodationBookingViewSet.perform_create` followed by the serializer
and model save: validate the window, fill in the actor fields
(`guest_user_id`, `profile_id` defaulting to `"customer"`), persist via
`AccommodationBooking.save`.  The availability `Ledger` is threaded through
unmodified: no code on this path reads or writes
`AccommodationAvailability`. -/
def accCreateBooking (L : Ledger) (today : Int) (r : AccBookingRequest)
    (userId : String) (profileHeader : Option String) (sfx : String) :
    Ledger × Except String AccBooking :=
  match accValidate today r with
  | some e => (L, .error e)
  | none =>
    let b : AccBooking :=
      { booking_reference := ""
        profile_id := profileHeader.getD "customer"
        guest_user_id := userId
        guest_name := r.guest_name
        guest_email := r.guest_email
        guest_phone := r.guest_phone
        check_in_date := r.check_in_date
        check_out_date := r.check_out_date
        number_of_guests := r.number_of_guests
        number_of_rooms := r.number_of_rooms
        room_rate := r.room_rate
        total_nights := 0
        subtotal := 0
        taxes := r.taxes
        fees := r.fees
        total_amount := 0
        status := r.status.getD .pending
        confirmation_date := none
        cancellation_date := none }
    (L, .ok (accSave b sfx))

/-- `AccommodationBookingViewSet.confirm`: reject unless the status string is
exactly `"pending"`; otherwise set status `confirmed`, stamp
`confirmation_date`, and save.  Returns the persisted booking together with
the error message of the 400 response, if any. -/
def accConfirm (b : AccBooking) (now : Nat) (sfx : String) :
    AccBooking × Option String :=
  if b.status.toStr ≠ "pending" then
    (b, some "Only pending bookings can be confirmed")
  else
    (accSave { b with status := .confirmed, confirmation_date := some now } sfx,
     none)

/-- `AccommodationBookingViewSet.cancel`: reject when the status string is in
`["completed", "cancelled"]`; otherwise set status `cancelled`, stamp
`cancellation_date`, and save.  The availability `Ledger` is threaded through
unmodified: the action performs no capacity release. -/
def accCancel (L : Ledger) (b : AccBooking) (now : Nat) (sfx : String) :
    Ledger × AccBooking × Option String :=
  if b.status.toStr ∈ ["completed", "cancelled"] then
    (L, b, some "Cannot cancel completed or already cancelled booking")
  else
    (L, accSave { b with status := .cancelled, cancellation_date := some now } sfx,
     none)

/-! ## Food and dining domain (`mainapps/food_dining`) -/

/-- `BookingStatus` choices of `food_dining/models.py` (a module-level class,
not an attribute of the `FoodBooking` model class). -/
inductive FoodStatus where
  | pending
  | confirmed
  | preparing
  | ready
  | out_for_delivery
  | delivered
  | completed
  | cancelled
  | no_show
deriving DecidableEq, Repr

/-- The database string value of a food booking status. -/
def FoodStatus.toStr : FoodStatus → String
  | .pending => "pending"
  | .confirmed => "confirmed"
  | .preparing => "preparing"
  | .ready => "ready"
  | .out_for_delivery => "out_for_delivery"
  | .delivered => "delivered"
  | .completed => "completed"
  | .cancelled => "cancelled"
  | .no_show => "no_show"

/-- `BookingType` choices of `food_dining/models.py`. -/
inductive FoodBookingType where
  | reservation
  | delivery
  | takeout
  | catering
deriving DecidableEq, Repr

/-- An `OrderItem` row: quantity, the unit price snapshotted at creation, and
the stored line total. -/
structure OrderItem where
  menu_item : Nat
  quantity : Nat
  unit_price : Int
  total_price : Int
deriving DecidableEq, Repr

/-- `OrderItem.save`: recompute `total_price` from the stored `unit_price`
and `quantity`.  The menu-item catalog is not consulted. -/
def orderItemSave (i : OrderItem) : OrderItem :=
  { i with total_price := i.unit_price * (i.quantity : Int) }

/-- The persisted state of a `FoodBooking` row together with its owned
`order_items` rows (fields the booking logic reads or writes). -/
structure FoodBooking where
  booking_reference : String
  profile_id : String
  customer_user_id : String
  customer_name : String
  booking_type : FoodBookingType
  reservation_date : Option Int
  reservation_time : Option Nat
  party_size : Nat
  delivery_address : String
  event_date : Option Int
  event_location : String
  subtotal : Int
  delivery_fee : Int
  service_charge : Int
  taxes : Int
  discount_amount : Int
  tip_amount : Int
  total_amount : Int
  status : FoodStatus
  confirmation_date : Option Nat
  preparation_start_time : Option Nat
  ready_time : Option Nat
  delivery_start_time : Option Nat
  completion_time : Option Nat
  cancellation_date : Option Nat
  order_items : List OrderItem
deriving DecidableEq, Repr

/-- `FoodBooking.generate_booking_reference`: the f-string
`"{prefix}-{profile_id}-{suffix}"` with prefix `"FD"`, i.e. the components
are separated by hyphen characters. -/
def foodGenRef (profileId sfx : String) : String :=
  "FD-" ++ profileId ++ "-" ++ sfx

/-- `FoodBooking.save`: generate the reference only when it is absent, then
recompute `total_amount` from the stored amounts. -/
def foodSave (b : FoodBooking) (sfx : String) : FoodBooking :=
  let ref := if b.booking_reference = "" then foodGenRef b.profile_id sfx
             else b.booking_reference
  { b with booking_reference := ref
           total_amount := b.subtotal + b.delivery_fee + b.service_charge +
             b.taxes + b.tip_amount - b.discount_amount }

/-- One entry of the writable `order_items` payload. -/
structure OrderItemRequest where
  menu_item : Nat
  quantity : Nat
deriving DecidableEq, Repr

/-- The writable payload of a food booking-creation request, after DRF field
validation: the serializer fields of `FoodBookingSerializer` that are not
read-only.  `status` and `subtotal` are writable (listed in `fields`, not in
`read_only_fields`); `booking_type` defaults to `reservation`. -/
structure FoodBookingRequest where
  booking_type : FoodBookingType
  customer_name : String
  reservation_date : Option Int
  reservation_time : Option Nat
  party_size : Nat
  delivery_address : String
  event_date : Option Int
  event_location : String
  subtotal : Int
  delivery_fee : Int
  service_charge : Int
  taxes : Int
  discount_amount : Int
  tip_amount : Int
  status : Option FoodStatus
  order_items : List OrderItemRequest
deriving DecidableEq, Repr

/-- `FoodBookingSerializer.validate`: per booking kind, require the
reservation date and time, a non-empty delivery address, or the event date
and a non-empty event location.  Empty strings and absent optionals are falsy
in the Python tests.  Returns the error message raised, or `none`. -/
def foodValidate (r : FoodBookingRequest) : Option String :=
  match r.booking_type with
  | .reservation =>
    if r.reservation_date.isNone ∨ r.reservation_time.isNone then
      some "Reservation date and time are required for table reservations"
    else none
  | .delivery =>
    if r.delivery_address = "" then
      some "Delivery address is required for delivery orders"
    else none
  | .catering =>
    if r.event_date.isNone ∨ r.event_location = "" then
      some "Event date and location are required for catering services"
    else none
  | .takeout => none

/-- `FoodBookingViewSet.perform_create` with `FoodBookingSerializer.create`:
validate, persist the booking, create each `OrderItem` with `unit_price`
snapshotted from the menu item's current catalog price, sum the line totals
into `subtotal`, recompute `total_amount`, and save again.  `catalog` maps a
menu-item id to its current price.  The availability `Ledger` is threaded
through unmodified: no code on this path reads or writes any table or slot
availability. -/
def foodCreateBooking (L : Ledger) (r : FoodBookingRequest)
    (catalog : Nat → Int) (userId : String) (profileHeader : Option String)
    (sfx : String) : Ledger × Except String FoodBooking :=
  match foodValidate r with
  | some e => (L, .error e)
  | none =>
    let b0 : FoodBooking :=
      { booking_reference := ""
        profile_id := profileHeader.getD "customer"
        customer_user_id := userId
        customer_name := r.customer_name
        booking_type := r.booking_type
        reservation_date := r.reservation_date
        reservation_time := r.reservation_time
        party_size := r.party_size
        delivery_address := r.delivery_address
        event_date := r.event_date
        event_location := r.event_location
        subtotal := r.subtotal
        delivery_fee := r.delivery_fee
        service_charge := r.service_charge
        taxes := r.taxes
        discount_amount := r.discount_amount
        tip_amount := r.tip_amount
        total_amount := 0
        status := r.status.getD .pending
        confirmation_date := none
        preparation_start_time := none
        ready_time := none
        delivery_start_time := none
        completion_time := none
        cancellation_date := none
        order_items := [] }
    let b1 := foodSave b0 sfx
    let items := r.order_items.map (fun it =>
      orderItemSave
        { menu_item := it.menu_item
          quantity := it.quantity
          unit_price := catalog it.menu_item
          total_price := 0 })
    let sub := (items.map OrderItem.total_price).sum
    let b2 := { b1 with subtotal := sub, order_items := items }
    let b3 := { b2 with total_amount := b2.subtotal + b2.delivery_fee +
                  b2.service_charge + b2.taxes + b2.tip_amount -
                  b2.discount_amount }
    (L, .ok (foodSave b3 sfx))

/-- `FoodBookingViewSet.confirm`: reject unless the status string is exactly
`"pending"`; otherwise set status `confirmed`, stamp `confirmation_date`,
and save. -/
def foodConfirm (b : FoodBooking) (now : Nat) (sfx : String) :
    FoodBooking × Option String :=
  if b.status.toStr ≠ "pending" then
    (b, some "Only pending bookings can be confirmed")
  else
    (foodSave { b with status := .confirmed, confirmation_date := some now } sfx,
     none)

/-- `FoodBookingViewSet.cancel`: reject when the status string is in
`["completed", "delivered", "cancelled"]`; otherwise set status `cancelled`,
stamp `cancellation_date`, and save.  The availability `Ledger` is threaded
through unmodified: the action performs no capacity release. -/
def foodCancel (L : Ledger) (b : FoodBooking) (now : Nat) (sfx : String) :
    Ledger × FoodBooking × Option String :=
  if b.status.toStr ∈ ["completed", "delivered", "cancelled"] then
    (L, b, some "Cannot cancel completed, delivered or already cancelled booking")
  else
    (L, foodSave { b with status := .cancelled, cancellation_date := some now } sfx,
     none)

/-- The names bound on the `FoodBooking` model class (its own fields and
methods, the fields and manager inherited from `ProfileMixin`, and `Meta`),
as Python attribute lookup on the class sees them.  `BookingStatus` and
`BookingType` are module-level classes in `food_dining/models.py` and are
not bound on `FoodBooking`. -/
def foodBookingClassAttrs : List String :=
  ["id", "booking_reference", "restaurant", "booking_type",
   "customer_user_id", "customer_name", "customer_email", "customer_phone",
   "table", "reservation_date", "reservation_time", "party_size",
   "delivery_address", "delivery_city", "delivery_instructions",
   "delivery_latitude", "delivery_longitude",
   "event_date", "event_time", "event_location", "expected_guests",
   "subtotal", "delivery_fee", "service_charge", "taxes",
   "discount_amount", "tip_amount", "total_amount", "currency",
   "status", "payment_id", "payment_status",
   "special_requests", "dietary_requirements", "internal_notes",
   "booking_date", "confirmation_date", "preparation_start_time",
   "ready_time", "delivery_start_time", "completion_time",
   "cancellation_date",
   "profile_id", "created_by_id", "modified_by_id",
   "created_at", "updated_at", "objects",
   "Meta", "save", "generate_booking_reference"]

/-- The status string parsed back into the `BookingStatus` choice it names,
when it names one. -/
def foodStatusOfStr (s : String) : Option FoodStatus :=
  if s = "pending" then some .pending
  else if s = "confirmed" then some .confirmed
  else if s = "preparing" then some .preparing
  else if s = "ready" then some .ready
  else if s = "out_for_delivery" then some .out_for_delivery
  else if s = "delivered" then some .delivered
  else if s = "completed" then some .completed
  else if s = "cancelled" then some .cancelled
  else if s = "no_show" then some .no_show
  else none

/-- Outcome of a ViewSet action as the HTTP layer sees it: a response with a
status code and message, or an uncaught Python exception. -/
inductive PyOutcome where
  | response (httpStatus : Nat) (body : String)
  | attrError (attrName : String)
deriving DecidableEq, Repr

/-- `FoodBookingViewSet.update_status`: return 400 when no status is supplied;
otherwise evaluate `FoodBooking.BookingStatus.choices`, which performs a
Python attribute lookup of `"BookingStatus"` on the `FoodBooking` class and
raises `AttributeError` when the name is not bound there.  The branch behind
the successful lookup transliterates the rest of the action (validity check,
status assignment, per-status timestamp stamping, save). -/
def foodUpdateStatus (b : FoodBooking) (newStatus : String) (now : Nat)
    (sfx : String) : FoodBooking × PyOutcome :=
  if newStatus = "" then
    (b, .response 400 "Status is required")
  else if "BookingStatus" ∈ foodBookingClassAttrs then
    if (foodStatusOfStr newStatus).isNone then
      (b, .response 400 "Invalid status")
    else
      let b := { b with status := (foodStatusOfStr newStatus).getD b.status }
      let b :=
        if newStatus = "preparing" then
          { b with preparation_start_time := some now }
        else if newStatus = "ready" then
          { b with ready_time := some now }
        else if newStatus = "out_for_delivery" then
          { b with delivery_start_time := some now }
        else if newStatus = "delivered" ∨ newStatus = "completed" then
          { b with completion_time := some now }
        else b
      (foodSave b sfx, .response 200 "ok")
  else
    (b, .attrError "BookingStatus")

/-! ## Sample rows used by the concrete-input theorems -/

/-- A fully-available two-room ledger (every date has 2 rooms remaining). -/
def twoRoomLedger : Ledger := fun _ => 2

/-- A sample one-room stay request for the window 2024-06-01 to 2024-06-04 at
100.00 per night, carrying no explicit status. -/
def stayRequest : AccBookingRequest :=
  { check_in_date := daysFromCivil 2024 6 1
    check_out_date := daysFromCivil 2024 6 4
    number_of_guests := 2
    number_of_rooms := 1
    room_rate := 10000
    taxes := 0
    fees := 0
    status := none
    guest_name := "Ada Guest"
    guest_email := "ada@example.com"
    guest_phone := "080" }

/-- A sample persisted accommodation booking row for that window:
one room at 100.00 per night, 3 nights, confirmed. -/
def stayBooking : AccBooking :=
  { booking_reference := "ACCp1AAAAAAAA"
    profile_id := "p1"
    guest_user_id := "u1"
    guest_name := "Ada Guest"
    guest_email := "ada@example.com"
    guest_phone := "080"
    check_in_date := daysFromCivil 2024 6 1
    check_out_date := daysFromCivil 2024 6 4
    number_of_guests := 2
    number_of_rooms := 1
    room_rate := 10000
    total_nights := 3
    subtotal := 30000
    taxes := 0
    fees := 0
    total_amount := 30000
    status := .confirmed
    confirmation_date := some 5
    cancellation_date := none }

/-- A sample persisted food booking row: a pending takeout order. -/
def takeoutBooking : FoodBooking :=
  { booking_reference := "FD-p1-AAAAAAAA"
    profile_id := "p1"
    customer_user_id := "u1"
    customer_name := "Ada Guest"
    booking_type := .takeout
    reservation_date := none
    reservation_time := none
    party_size := 1
    delivery_address := ""
    event_date := none
    event_location := ""
    subtotal := 3000
    delivery_fee := 0
    service_charge := 0
    taxes := 0
    discount_amount := 0
    tip_amount := 0
    total_amount := 3000
    status := .pending
    confirmation_date := none
    preparation_start_time := none
    ready_time := none
    delivery_start_time := none
    completion_time := none
    cancellation_date := none
    order_items := [] }

/-! ## C1: capacity reservation at creation -/

/-- First creation against the fully-available two-room ledger. -/
def c1First : Ledger × Except String AccBooking :=
  accCreateBooking twoRoomLedger (daysFromCivil 2024 5 1) stayRequest
    "u1" (some "p1") "AAAAAAAA"

/-- Second overlapping creation, against the ledger left by the first. -/
def c1Second : Ledger × Except String AccBooking :=
  accCreateBooking c1First.1 (daysFromCivil 2024 5 1) stayRequest
    "u2" (some "p1") "BBBBBBBB"

/-- Third overlapping creation, against the ledger left by the second. -/
def c1Third : Ledger × Except String AccBooking :=
  accCreateBooking c1Second.1 (daysFromCivil 2024 5 1) stayRequest
    "u3" (some "p1") "CCCCCCCC"

/-- C1, counterexample.  The claim requires that two 1-room creations against
a 2-room window leave remaining capacity 0 and that a third yields
InsufficientCapacity.  In the code, creation never reads or decrements the
availability ledger: after two successful creations the remaining capacity on
2024-06-01 is still 2, and the third creation also succeeds. -/
theorem c1_counterexample :
    c1First.2.toOption.isSome = true ∧
    c1Second.2.toOption.isSome = true ∧
    c1Second.1 (daysFromCivil 2024 6 1) = 2 ∧
    c1Third.2.toOption.isSome = true ∧
    c1Third.1 (daysFromCivil 2024 6 1) = 2 := by
  decide

/-- C1, amended: booking creation never touches the availability ledger and
never fails with InsufficientCapacity; it succeeds exactly when the requested
window is valid (check-out strictly after check-in and check-in not before
today), regardless of remaining capacity. -/
theorem acc_create_ignores_ledger (L : Ledger) (today : Int)
    (r : AccBookingRequest) (u : String) (p : Option String) (sfx : String) :
    (accCreateBooking L today r u p sfx).1 = L ∧
    ((accCreateBooking L today r u p sfx).2.toOption.isSome ↔
      (r.check_in_date < r.check_out_date ∧ today ≤ r.check_in_date)) := by
  constructor
  · unfold accCreateBooking
    cases h : accValidate today r <;> simp
  · unfold accCreateBooking accValidate
    split_ifs with h1 h2 <;> simp [Except.toOption] <;> omega

/-! ## C2: cancellation and capacity release -/

/-- An exhausted ledger: 0 rooms remaining on every date. -/
def emptyLedger : Ledger := fun _ => 0

/-- C2, counterexample.  The claim requires cancellation of a confirmed
booking to restore the reserved capacity to the ledger.  Cancelling the
confirmed one-room `stayBooking` against a ledger with 0 rooms remaining does
set status `cancelled` and stamp the cancellation timestamp, but the ledger
still shows 0 remaining on 2024-06-01 (the claim requires 1). -/
theorem c2_counterexample :
    (accCancel emptyLedger stayBooking 7 "ZZZZZZZZ").2.1.status =
      AccStatus.cancelled ∧
    (accCancel emptyLedger stayBooking 7 "ZZZZZZZZ").2.1.cancellation_date =
      some 7 ∧
    (accCancel emptyLedger stayBooking 7 "ZZZZZZZZ").1
      (daysFromCivil 2024 6 1) = 0 := by
  decide

/-- C2, amended: for every booking whose status permits cancellation, cancel
sets status `cancelled` and stamps the cancellation timestamp, but performs
no availability-ledger operation at all (no capacity is restored, because
none was ever reserved), in both domains. -/
theorem cancel_stamps_but_releases_nothing :
    (∀ (L : Ledger) (b : AccBooking) (now : Nat) (sfx : String),
      b.status.toStr ∉ (["completed", "cancelled"] : List String) →
      (accCancel L b now sfx).1 = L ∧
      (accCancel L b now sfx).2.1.status = AccStatus.cancelled ∧
      (accCancel L b now sfx).2.1.cancellation_date = some now ∧
      (accCancel L b now sfx).2.2 = none) ∧
    (∀ (L : Ledger) (b : FoodBooking) (now : Nat) (sfx : String),
      b.status.toStr ∉ (["completed", "delivered", "cancelled"] : List String) →
      (foodCancel L b now sfx).1 = L ∧
      (foodCancel L b now sfx).2.1.status = FoodStatus.cancelled ∧
      (foodCancel L b now sfx).2.1.cancellation_date = some now ∧
      (foodCancel L b now sfx).2.2 = none) := by
  constructor <;> intro L b now sfx h <;>
    simp [accCancel, foodCancel, accSave, foodSave, h]

/-- C2, witness: cancelling the concrete confirmed `stayBooking` stamps it
cancelled and leaves the exhausted ledger untouched. -/
theorem cancel_stamps_but_releases_nothing_witness :
    (accCancel emptyLedger stayBooking 7 "ZZZZZZZZ").2.1.status =
      AccStatus.cancelled ∧
    (accCancel emptyLedger stayBooking 7 "ZZZZZZZZ").1 = emptyLedger :=
  ⟨(cancel_stamps_but_releases_nothing.1 emptyLedger stayBooking 7 "ZZZZZZZZ"
      (by decide)).2.1,
   (cancel_stamps_but_releases_nothing.1 emptyLedger stayBooking 7 "ZZZZZZZZ"
      (by decide)).1⟩

/-! ## C3: cancellation of finished or cancelled bookings -/

/-- A booking status's string equals "pending" exactly for the pending
status (accommodation domain). -/
theorem accStatus_toStr_pending (s : AccStatus) :
    s.toStr = "pending" ↔ s = AccStatus.pending := by
  cases s <;> decide

/-- A booking status's string equals "pending" exactly for the pending
status (food domain). -/
theorem foodStatus_toStr_pending (s : FoodStatus) :
    s.toStr = "pending" ↔ s = FoodStatus.pending := by
  cases s <;> decide

/-- C3: in both domains, `cancel` on a booking whose status is completed,
delivered, or cancelled returns the 400 rejection and leaves the booking,
its timestamps, and the ledger unchanged.  (In the lodging domain the only
such reachable status is `cancelled`: `completed` and `delivered` are not
lodging statuses.) -/
theorem cancel_rejected_on_terminal :
    (∀ (L : Ledger) (b : AccBooking) (now : Nat) (sfx : String),
      b.status.toStr ∈ (["completed", "delivered", "cancelled"] : List String) →
      accCancel L b now sfx =
        (L, b, some "Cannot cancel completed or already cancelled booking")) ∧
    (∀ (L : Ledger) (b : FoodBooking) (now : Nat) (sfx : String),
      b.status.toStr ∈ (["completed", "delivered", "cancelled"] : List String) →
      foodCancel L b now sfx =
        (L, b,
         some "Cannot cancel completed, delivered or already cancelled booking")) := by
  constructor
  · intro L b now sfx h
    cases hb : b.status <;>
      first
      | (rw [hb] at h; exact absurd h (by decide))
      | (have hc : b.status.toStr ∈ (["completed", "cancelled"] : List String) := by
           rw [hb]; decide
         simp [accCancel, hc])
  · intro L b now sfx h
    cases hb : b.status <;>
      first
      | (rw [hb] at h; exact absurd h (by decide))
      | (have hc : b.status.toStr ∈
            (["completed", "delivered", "cancelled"] : List String) := by
           rw [hb]; decide
         simp [foodCancel, hc])

/-- C3, witness: a cancelled stay booking and a delivered food booking are
both rejected verbatim, bookings and ledger untouched. -/
theorem cancel_rejected_on_terminal_witness :
    accCancel twoRoomLedger { stayBooking with status := .cancelled } 7 "QQQQQQQQ" =
      (twoRoomLedger, { stayBooking with status := .cancelled },
        some "Cannot cancel completed or already cancelled booking") ∧
    foodCancel twoRoomLedger { takeoutBooking with status := .delivered } 7 "QQQQQQQQ" =
      (twoRoomLedger, { takeoutBooking with status := .delivered },
        some "Cannot cancel completed, delivered or already cancelled booking") :=
  ⟨cancel_rejected_on_terminal.1 twoRoomLedger
      { stayBooking with status := .cancelled } 7 "QQQQQQQQ" (by decide),
   cancel_rejected_on_terminal.2 twoRoomLedger
      { takeoutBooking with status := .delivered } 7 "QQQQQQQQ" (by decide)⟩

/-! ## C4: confirmation only from pending -/

/-- C4: in both domains, `confirm` succeeds exactly when the status is
`pending`; on success it sets status `confirmed` and stamps the confirmation
timestamp, and on any other status it returns the 400 rejection with the
booking unchanged. -/
theorem confirm_iff_pending :
    (∀ (b : AccBooking) (now : Nat) (sfx : String),
      ((accConfirm b now sfx).2 = none ↔ b.status = AccStatus.pending) ∧
      (b.status = AccStatus.pending →
        (accConfirm b now sfx).1.status = AccStatus.confirmed ∧
        (accConfirm b now sfx).1.confirmation_date = some now) ∧
      (b.status ≠ AccStatus.pending →
        accConfirm b now sfx = (b, some "Only pending bookings can be confirmed"))) ∧
    (∀ (b : FoodBooking) (now : Nat) (sfx : String),
      ((foodConfirm b now sfx).2 = none ↔ b.status = FoodStatus.pending) ∧
      (b.status = FoodStatus.pending →
        (foodConfirm b now sfx).1.status = FoodStatus.confirmed ∧
        (foodConfirm b now sfx).1.confirmation_date = some now) ∧
      (b.status ≠ FoodStatus.pending →
        foodConfirm b now sfx = (b, some "Only pending bookings can be confirmed"))) := by
  constructor
  · intro b now sfx
    by_cases hp : b.status = AccStatus.pending
    · have hs : b.status.toStr = "pending" := by rw [hp]; rfl
      simp [accConfirm, accSave, AccStatus.toStr, hs, hp]
    · have hs : ¬(b.status.toStr = "pending") := fun hc =>
        hp ((accStatus_toStr_pending b.status).1 hc)
      simp [accConfirm, hs, hp]
  · intro b now sfx
    by_cases hp : b.status = FoodStatus.pending
    · have hs : b.status.toStr = "pending" := by rw [hp]; rfl
      simp [foodConfirm, foodSave, FoodStatus.toStr, hs, hp]
    · have hs : ¬(b.status.toStr = "pending") := fun hc =>
        hp ((foodStatus_toStr_pending b.status).1 hc)
      simp [foodConfirm, hs, hp]

/-- C4, witness: confirming a pending stay booking stamps it confirmed;
confirming a completed food booking is rejected unchanged. -/
theorem confirm_iff_pending_witness :
    (accConfirm { stayBooking with status := .pending } 9 "QQQQQQQQ").1.status =
      AccStatus.confirmed ∧
    (accConfirm { stayBooking with status := .pending } 9 "QQQQQQQQ").1.confirmation_date =
      some 9 ∧
    foodConfirm { takeoutBooking with status := .completed } 9 "QQQQQQQQ" =
      ({ takeoutBooking with status := .completed },
        some "Only pending bookings can be confirmed") :=
  ⟨((confirm_iff_pending.1 { stayBooking with status := .pending } 9 "QQQQQQQQ").2.1
      (by decide)).1,
   ((confirm_iff_pending.1 { stayBooking with status := .pending } 9 "QQQQQQQQ").2.1
      (by decide)).2,
   (confirm_iff_pending.2 { takeoutBooking with status := .completed } 9 "QQQQQQQQ").2.2
      (by decide)⟩

/-! ## C5: stay pricing -/

/-- C5: on every save of a stay booking with check-out strictly after
check-in, the stored financials are recomputed exactly, in fixed-point
(integer hundredths) arithmetic: nights is the day difference (hence at
least 1), subtotal is rate times nights times rooms, and the total equals
subtotal plus taxes plus fees (the stay model has no tip or discount field,
so those terms are identically zero).  The concrete scenario
2024-06-01 to 2024-06-04 at 100.00 per night and one room gives 3 nights
and a 300.00 subtotal. -/
theorem acc_save_pricing (b : AccBooking) (sfx : String)
    (h : b.check_in_date < b.check_out_date) :
    (accSave b sfx).total_nights = b.check_out_date - b.check_in_date ∧
    1 ≤ (accSave b sfx).total_nights ∧
    (accSave b sfx).subtotal =
      (accSave b sfx).room_rate * (accSave b sfx).total_nights *
        ((accSave b sfx).number_of_rooms : Int) ∧
    (accSave b sfx).total_amount =
      (accSave b sfx).subtotal + (accSave b sfx).taxes + (accSave b sfx).fees ∧
    (accSave stayBooking "AAAAAAAA").total_nights = 3 ∧
    (accSave stayBooking "AAAAAAAA").subtotal = 30000 := by
  refine ⟨?_, ?_, ?_, ?_, by decide, by decide⟩
  · simp [accSave]
  · simp [accSave]; omega
  · simp [accSave]
  · simp [accSave]

/-- C5, witness: the pricing identities evaluated on the concrete
`stayBooking` row. -/
theorem acc_save_pricing_witness :
    (accSave stayBooking "AAAAAAAA").total_nights =
      stayBooking.check_out_date - stayBooking.check_in_date ∧
    1 ≤ (accSave stayBooking "AAAAAAAA").total_nights :=
  ⟨(acc_save_pricing stayBooking "AAAAAAAA" (by decide)).1,
   (acc_save_pricing stayBooking "AAAAAAAA" (by decide)).2.1⟩

/-! ## C6: order line pricing snapshots -/

/-- A sample menu-item catalog: item 1 costs 15.00, every other item 8.00. -/
def menuCatalog : Nat → Int := fun n => if n = 1 then 1500 else 800

/-- A sample takeout order request with two order lines. -/
def takeoutRequest : FoodBookingRequest :=
  { booking_type := .takeout
    customer_name := "Ada Guest"
    reservation_date := none
    reservation_time := none
    party_size := 1
    delivery_address := ""
    event_date := none
    event_location := ""
    subtotal := 0
    delivery_fee := 0
    service_charge := 0
    taxes := 0
    discount_amount := 0
    tip_amount := 0
    status := none
    order_items := [{ menu_item := 1, quantity := 2 }, { menu_item := 2, quantity := 1 }] }

/-- The booking created from `takeoutRequest` against `menuCatalog`. -/
def takeoutCreated : FoodBooking :=
  ((foodCreateBooking twoRoomLedger takeoutRequest menuCatalog "u1" (some "p1")
    "AAAAAAAA").2.toOption).getD takeoutBooking

/-- C6: every created dining booking snapshots each line's unit price from
the catalog at creation time, stores line total = unit price times quantity,
and stores subtotal = sum of the line totals; and `OrderItem.save` never
consults the catalog again — it recomputes the line total from the stored
unit price only, leaving the unit price unchanged whatever the catalog now
says. -/
theorem food_order_pricing :
    (∀ (L : Ledger) (r : FoodBookingRequest) (catalog : Nat → Int)
      (u : String) (p : Option String) (sfx : String) (b : FoodBooking),
      (foodCreateBooking L r catalog u p sfx).2 = Except.ok b →
      ((∀ i ∈ b.order_items, i.unit_price = catalog i.menu_item ∧
          i.total_price = catalog i.menu_item * (i.quantity : Int)) ∧
       b.subtotal = (b.order_items.map OrderItem.total_price).sum)) ∧
    (∀ (i : OrderItem),
      (orderItemSave i).unit_price = i.unit_price ∧
      (orderItemSave i).total_price = i.unit_price * (i.quantity : Int)) := by
  constructor
  · intro L r catalog u p sfx b h
    unfold foodCreateBooking at h
    cases hv : foodValidate r
    case some e => rw [hv] at h; simp at h
    case none =>
      rw [hv] at h
      simp only [Except.ok.injEq] at h
      subst h
      constructor
      · intro i hi
        simp only [foodSave, List.mem_map] at hi
        obtain ⟨it, hit, rfl⟩ := hi
        constructor <;> simp [orderItemSave]
      · simp [foodSave]
  · intro i
    constructor <;> simp [orderItemSave]

/-- C6, witness: the concrete booking created from `takeoutRequest` satisfies
subtotal = sum of its stored line totals. -/
theorem food_order_pricing_witness :
    takeoutCreated.subtotal =
      (takeoutCreated.order_items.map OrderItem.total_price).sum :=
  (food_order_pricing.1 twoRoomLedger takeoutRequest menuCatalog "u1" (some "p1")
     "AAAAAAAA" takeoutCreated rfl).2

/-! ## C7: initial status of created bookings -/

/-- A stay request identical to `stayRequest` but carrying an explicit
`confirmed` status in its payload. -/
def confirmedStatusRequest : AccBookingRequest :=
  { check_in_date := daysFromCivil 2024 6 1
    check_out_date := daysFromCivil 2024 6 4
    number_of_guests := 2
    number_of_rooms := 1
    room_rate := 10000
    taxes := 0
    fees := 0
    status := some .confirmed
    guest_name := "Ada Guest"
    guest_email := "ada@example.com"
    guest_phone := "080" }

/-- C7, counterexample.  The claim says every booking produced by creation is
persisted with status `pending`.  But `status` is a writable serializer
field: the creation request `confirmedStatusRequest`, which carries
`status = confirmed`, succeeds and persists a booking whose status is
`confirmed`, not `pending`. -/
theorem c7_counterexample :
    ((accCreateBooking twoRoomLedger (daysFromCivil 2024 5 1)
        confirmedStatusRequest "u1" (some "p1") "AAAAAAAA").2.toOption.map
      AccBooking.status) = some AccStatus.confirmed ∧
    AccStatus.confirmed ≠ AccStatus.pending := by
  decide

/-- C7, amended: a created booking's status is the status carried by the
request when one is supplied, and the model default `pending` only when the
request omits it, in both domains. -/
theorem created_status_is_request_or_pending :
    (∀ (L : Ledger) (today : Int) (r : AccBookingRequest) (u : String)
      (p : Option String) (sfx : String) (b : AccBooking),
      (accCreateBooking L today r u p sfx).2 = Except.ok b →
      b.status = r.status.getD AccStatus.pending) ∧
    (∀ (L : Ledger) (r : FoodBookingRequest) (catalog : Nat → Int) (u : String)
      (p : Option String) (sfx : String) (b : FoodBooking),
      (foodCreateBooking L r catalog u p sfx).2 = Except.ok b →
      b.status = r.status.getD FoodStatus.pending) := by
  constructor
  · intro L today r u p sfx b h
    unfold accCreateBooking at h
    cases hv : accValidate today r
    case some e => rw [hv] at h; simp at h
    case none =>
      rw [hv] at h
      simp only [Except.ok.injEq] at h
      subst h
      simp [accSave]
  · intro L r catalog u p sfx b h
    unfold foodCreateBooking at h
    cases hv : foodValidate r
    case some e => rw [hv] at h; simp at h
    case none =>
      rw [hv] at h
      simp only [Except.ok.injEq] at h
      subst h
      simp [foodSave]

/-- The booking created from the statusless `stayRequest`. -/
def stayCreated : AccBooking :=
  ((accCreateBooking twoRoomLedger (daysFromCivil 2024 5 1) stayRequest "u1"
     (some "p1") "AAAAAAAA").2.toOption).getD stayBooking

/-- C7, witness: the booking created from the statusless `stayRequest` is
pending. -/
theorem created_status_is_request_or_pending_witness :
    stayCreated.status = stayRequest.status.getD AccStatus.pending :=
  created_status_is_request_or_pending.1 twoRoomLedger (daysFromCivil 2024 5 1)
    stayRequest "u1" (some "p1") "AAAAAAAA" stayCreated rfl

/-! ## C8: booking reference format and immutability -/

/-- C8, counterexample.  The claim says every reference has the format
domain-prefix, then tenant id, then 8 alphanumeric characters, with no other
characters.  The dining reference generated for tenant "p1" with suffix
"AAAAAAAA" differs from the claimed concatenation and contains the hyphen
character, which is not alphanumeric and occurs in none of the three claimed
components. -/
theorem c8_counterexample :
    foodGenRef "p1" "AAAAAAAA" ≠ "FD" ++ "p1" ++ "AAAAAAAA" ∧
    '-' ∈ (foodGenRef "p1" "AAAAAAAA").toList ∧
    ('-').isAlphanum = false ∧
    '-' ∉ ("FD" ++ "p1" ++ "AAAAAAAA").toList := by
  decide

/-- C8, amended: the reference is generated only when absent and survives
every later save unchanged, in both domains; the lodging reference is exactly
"ACC" ++ tenant ++ suffix, while the dining reference is exactly
"FD-" ++ tenant ++ "-" ++ suffix (hyphen-separated).  Generation is a single
attempt — neither save retries on a uniqueness collision. -/
theorem booking_reference_shape :
    (∀ (b : AccBooking) (sfx : String), b.booking_reference ≠ "" →
      (accSave b sfx).booking_reference = b.booking_reference) ∧
    (∀ (b : FoodBooking) (sfx : String), b.booking_reference ≠ "" →
      (foodSave b sfx).booking_reference = b.booking_reference) ∧
    (∀ (b : AccBooking) (sfx : String), b.booking_reference = "" →
      (accSave b sfx).booking_reference = "ACC" ++ b.profile_id ++ sfx) ∧
    (∀ (b : FoodBooking) (sfx : String), b.booking_reference = "" →
      (foodSave b sfx).booking_reference = "FD-" ++ b.profile_id ++ "-" ++ sfx) := by
  refine ⟨?_, ?_, ?_, ?_⟩ <;> intro b sfx h <;>
    simp [accSave, foodSave, accGenRef, foodGenRef, h]

/-- C8, witness: a referenceless stay booking gets the "ACC" ++ tenant ++
suffix reference; a saved food booking keeps its existing reference. -/
theorem booking_reference_shape_witness :
    (accSave { stayBooking with booking_reference := "" } "BBBBBBBB").booking_reference =
      "ACC" ++ stayBooking.profile_id ++ "BBBBBBBB" ∧
    (foodSave takeoutBooking "BBBBBBBB").booking_reference =
      takeoutBooking.booking_reference :=
  ⟨booking_reference_shape.2.2.1 { stayBooking with booking_reference := "" }
      "BBBBBBBB" rfl,
   booking_reference_shape.2.1 takeoutBooking "BBBBBBBB" (by decide)⟩

/-! ## C9: delivery bookings require a delivery address -/

/-- C9: creating a delivery booking whose delivery address is empty fails
synchronously with the ValidationError message, persists no booking, and
leaves the availability ledger untouched. -/
theorem delivery_requires_address (L : Ledger) (r : FoodBookingRequest)
    (catalog : Nat → Int) (u : String) (p : Option String) (sfx : String)
    (hk : r.booking_type = FoodBookingType.delivery)
    (ha : r.delivery_address = "") :
    foodCreateBooking L r catalog u p sfx =
      (L, Except.error "Delivery address is required for delivery orders") := by
  have hv : foodValidate r =
      some "Delivery address is required for delivery orders" := by
    unfold foodValidate
    rw [hk]
    simp [ha]
  unfold foodCreateBooking
  rw [hv]

/-- A delivery request with an empty delivery address. -/
def deliveryNoAddressRequest : FoodBookingRequest :=
  { takeoutRequest with booking_type := .delivery }

/-- C9, witness: the concrete address-less delivery request is rejected and
the ledger is returned unchanged. -/
theorem delivery_requires_address_witness :
    foodCreateBooking twoRoomLedger deliveryNoAddressRequest menuCatalog "u1"
      (some "p1") "AAAAAAAA" =
      (twoRoomLedger,
        Except.error "Delivery address is required for delivery orders") :=
  delivery_requires_address twoRoomLedger deliveryNoAddressRequest menuCatalog
    "u1" (some "p1") "AAAAAAAA" rfl rfl

/-! ## C10: update_status always raises AttributeError -/

/-- C10: for every food booking and every non-empty target status,
`update_status` raises AttributeError on the lookup of `BookingStatus` on the
`FoodBooking` class before applying any state change; and on every input
whatsoever the booking is left unchanged and the outcome is either the
"Status is required" 400 response or that AttributeError — a fulfillment
advance never succeeds through this operation. -/
theorem update_status_attribute_error :
    (∀ (b : FoodBooking) (ns : String) (now : Nat) (sfx : String),
      ns ≠ "" →
      foodUpdateStatus b ns now sfx = (b, PyOutcome.attrError "BookingStatus")) ∧
    (∀ (b : FoodBooking) (ns : String) (now : Nat) (sfx : String),
      (foodUpdateStatus b ns now sfx).1 = b ∧
      ((foodUpdateStatus b ns now sfx).2 =
          PyOutcome.response 400 "Status is required" ∨
        (foodUpdateStatus b ns now sfx).2 =
          PyOutcome.attrError "BookingStatus")) := by
  have hmem : "BookingStatus" ∉ foodBookingClassAttrs := by decide
  constructor
  · intro b ns now sfx h
    simp [foodUpdateStatus, h, hmem]
  · intro b ns now sfx
    by_cases h : ns = ""
    · simp [foodUpdateStatus, h]
    · simp [foodUpdateStatus, h, hmem]

/-- C10, witness: advancing the concrete pending takeout booking to
"preparing" raises the AttributeError with the booking unchanged. -/
theorem update_status_attribute_error_witness :
    foodUpdateStatus takeoutBooking "preparing" 11 "QQQQQQQQ" =
      (takeoutBooking, PyOutcome.attrError "BookingStatus") :=
  update_status_attribute_error.1 takeoutBooking "preparing" 11 "QQQQQQQQ"
    (by decide)

end AkwaHotels

